import Mathlib

/-!
# Verification of the browser-automation control plane

Shallow embedding of the control-plane code of this repository:

* `src/test_loop_detection.py` / `src/test_phase1_checkpoint.py` — `LoopDetector`
  (the spec's LoopGuard): visual-loop detection over a rolling history of
  screenshot fingerprints and rotation of alternative actions.
* `src/adaptive_agent.py` — `AgentConfig`, `AgentResult`,
  `AgentReflection.suggest_alternative`, and the `run_adaptive_agent` worker loop.
* `src/backend/server.py` — the `/execute` endpoint, the `/ws/control`
  command handler, `run_agent` event emission, and
  `send_control_event_threadsafe` (the spec's CrossContextBridge `deliver`).
* `src/live_browser_manager.py` — `LiveBrowserManager.start_streaming` /
  `_handle_frame` (the spec's FrameStreamer).

Python machine behaviour is made explicit: fallible constructions return
`Except String`, mutable objects become explicit state records, and values
that the code obtains from the outside world (oracle decisions, page
contents, send outcomes) are parameters of the embedded functions.
-/

namespace LoopDetector

/-- `self.max_history = 5` set in `LoopDetector.__init__`
(src/test_loop_detection.py line 22); never mutated. -/
def max_history : Nat := 5

/-- `self.loop_threshold = 3` set in `LoopDetector.__init__`
(src/test_loop_detection.py line 23); never mutated. -/
def loop_threshold : Nat := 3

/-- Mutable state of a `LoopDetector` instance
(src/test_loop_detection.py lines 18-23).  A fingerprint is the md5-prefix
hash string `_hash_screenshot` computes; `detect_visual_loop` is modelled
directly on fingerprints (identical screenshots hash identically). -/
structure State where
  screenshot_hashes : List String
  last_action : Option String
  loop_break_attempts : Nat
deriving Repr, DecidableEq

/-- A fresh `LoopDetector()`. -/
def init : State := ⟨[], none, 0⟩

/-- `detect_visual_loop` (src/test_loop_detection.py lines 29-41): append the
current fingerprint, `pop(0)` once the history exceeds `max_history`, return
`False` while fewer than 3 entries are retained, otherwise report whether the
current fingerprint occurs at least `loop_threshold` times. -/
def detect_visual_loop (st : State) (fingerprint : String) : State × Bool :=
  let hs0 := st.screenshot_hashes ++ [fingerprint]
  let hs := if max_history < hs0.length then hs0.tail else hs0
  let st' := { st with screenshot_hashes := hs }
  if hs.length < 3 then (st', false)
  else (st', decide (loop_threshold ≤ hs.count fingerprint))

/-- Run `detect_visual_loop` over a whole fingerprint sequence, collecting the
returned booleans in order. -/
def observeAll (st : State) : List String → List Bool
  | [] => []
  | fp :: rest =>
    let (st', b) := detect_visual_loop st fp
    b :: observeAll st' rest

/-- Python substring test `pat in s` on lists of characters. -/
def charsContain (hay pat : List Char) : Bool :=
  hay.tails.any (fun t => pat.isPrefixOf t)

/-- `pat in s.lower()` for strings. -/
def containsLower (s pat : String) : Bool :=
  charsContain s.toLower.data pat.data

/-- The `alternatives` list that `get_alternative_action` builds
(src/test_loop_detection.py lines 46-59): an `if`/`elif` chain guarded by the
truthiness of `self.last_action` (a `None` or empty string is falsy) and
substring tests on its lowercase form, with a default rotation when no branch
appended anything. -/
def alternativesFor : Option String → List String
  | none => ["click_random", "scroll_down", "go_back"]
  | some a =>
    if a = "" then ["click_random", "scroll_down", "go_back"]
    else if containsLower a "scroll" then ["click_random", "go_back"]
    else if containsLower a "click" then ["scroll_down", "go_back"]
    else if containsLower a "type" then ["click_random", "scroll_down"]
    else ["click_random", "scroll_down", "go_back"]

/-- `get_alternative_action` (src/test_loop_detection.py lines 43-62):
increment `loop_break_attempts`, then return
`alternatives[self.loop_break_attempts % len(alternatives)]`. -/
def get_alternative_action (st : State) : State × String :=
  let attempts := st.loop_break_attempts + 1
  let alts := alternativesFor st.last_action
  ({ st with loop_break_attempts := attempts },
   alts.getD (attempts % alts.length) "")

/-- `record_action` (src/test_loop_detection.py lines 64-66). -/
def record_action (st : State) (action : String) : State :=
  { st with last_action := some action }

end LoopDetector

namespace AgentReflection

/-- `AgentReflection.suggest_alternative` (src/adaptive_agent.py lines
539-548): a fixed dictionary lookup from the current strategy to a suggestion
string, with a default; it reads and writes no instance state. -/
def suggest_alternative (current_strategy : String) : String :=
  if current_strategy = "clicking" then
    "Try extracting data directly without clicking individual items"
  else if current_strategy = "scrolling" then
    "Try using search or filters instead of scrolling"
  else if current_strategy = "typing" then
    "Try using buttons or navigation instead"
  else if current_strategy = "navigation" then
    "Try going back to homepage and using different path"
  else
    "Try a completely different approach"

end AgentReflection

/-!
## AgentConfig / AgentResult (src/adaptive_agent.py lines 18-56)
-/

/-- The `AgentConfig` dataclass (src/adaptive_agent.py lines 18-26).  Its
only fields are `task`, `model`, `tools`, `max_steps` and `headless`; there
is no `control_state` field. -/
structure AgentConfig where
  task : String
  model : String := "claude"
  tools : List String := []
  max_steps : Nat := 40
  headless : Bool := false
deriving Repr, DecidableEq

/-- The parameter names accepted by `AgentConfig.__init__` (the dataclass
fields, src/adaptive_agent.py lines 22-26). -/
def agentConfigFields : List String :=
  ["task", "model", "tools", "max_steps", "headless"]

/-- The `AgentResult` dataclass (src/adaptive_agent.py lines 29-42), keeping
the fields the verified claims talk about (`progress_summary`, `logs` and
`metadata` are opaque text/dict payloads and are omitted). -/
structure AgentResult where
  success : Bool
  status : String
  message : String
  mode : String
  session_id : String
  data : List String
  errors : List String
deriving Repr, DecidableEq

/-- A Python dict used as `AgentConfig(**config)` kwargs: the well-typed
values for the known dataclass fields plus the names of any keys outside the
dataclass's parameter list (the dataclass performs no runtime type checks,
and every caller in the repository passes well-typed values for the known
fields). -/
structure DictConfig where
  task : Option String := none
  model : Option String := none
  tools : Option (List String) := none
  max_steps : Option Nat := none
  headless : Option Bool := none
  extraKeys : List String := []
deriving Repr, DecidableEq

/-- CPython keyword binding for `AgentConfig(**kwargs)`: a keyword argument
outside the parameter list raises `TypeError` (unexpected keyword argument);
otherwise a missing `task` raises `TypeError` (missing required argument);
otherwise the dataclass fields are filled, absent keys taking their
declared defaults. -/
def AgentConfig.fromKwargs (d : DictConfig) : Except String AgentConfig :=
  match d.extraKeys with
  | k :: _ =>
      .error ("TypeError: __init__() got an unexpected keyword argument " ++ k)
  | [] =>
      match d.task with
      | none =>
          .error "TypeError: __init__() missing 1 required positional argument: task"
      | some t =>
          .ok { task := t
                model := d.model.getD "claude"
                tools := d.tools.getD []
                max_steps := d.max_steps.getD 40
                headless := d.headless.getD false }

/-!
## Control-state record, events and the /ws/control command handler
(src/backend/server.py)
-/

/-- One per-session entry of `agent_control_state`
(src/backend/server.py lines 42 and 193-198): `{"paused": bool,
"stop_requested": bool, "nudges": [str], "lock": Lock}`.  The mutex only
serialises accesses and carries no state of its own. -/
structure ControlRecord where
  paused : Bool
  stop_requested : Bool
  nudges : List String
deriving Repr, DecidableEq

/-- The record registered at session creation
(src/backend/server.py lines 193-198): all flags false, empty nudge queue. -/
def ControlRecord.init : ControlRecord := ⟨false, false, []⟩

/-- Server→client events of the control channel
(src/backend/server.py lines 526-537 and the `send_json` calls):
`status{phase}`, `command_ack{command}`, `pong`, `log`, `final{result}` and
`error{message}`. -/
inductive Event where
  | status (phase : String)
  | command_ack (command : String)
  | pong
  | log (message : String)
  | final (result : AgentResult)
  | errorEv (message : String)
deriving Repr, DecidableEq

/-- Client→server commands of the control channel
(src/backend/server.py lines 534-536). -/
inductive Command where
  | pause
  | resume
  | stop
  | nudge (text : String)
  | ping
  | unknown (commandType : String)
deriving Repr, DecidableEq

/-- The command dispatch of `websocket_control_channel`
(src/backend/server.py lines 566-628) for a registered session: `pause` sets
the paused flag and sends `status PAUSED` then the ack; `resume` clears it
and sends `status RUNNING` then the ack; `stop` sets `stop_requested` and
sends only the ack; `nudge` appends the text to the queue and sends the ack;
`ping` answers `pong`; an unknown command is logged and ignored.  Returns
the updated record and the events sent, in order. -/
def handleCommand (ctrl : ControlRecord) : Command → ControlRecord × List Event
  | .pause =>
      ({ ctrl with paused := true },
       [.status "PAUSED", .command_ack "pause"])
  | .resume =>
      ({ ctrl with paused := false },
       [.status "RUNNING", .command_ack "resume"])
  | .stop =>
      ({ ctrl with stop_requested := true }, [.command_ack "stop"])
  | .nudge t =>
      ({ ctrl with nudges := ctrl.nudges ++ [t] }, [.command_ack "nudge"])
  | .ping => (ctrl, [.pong])
  | .unknown _ => (ctrl, [])

/-!
## The Worker loop (src/adaptive_agent.py lines 693-1172)

One iteration of `for step in range(MAX_STEPS)`.  The oracle decision (the
parsed `ACTION:`/`DETAILS:` reply of the external model) and the page
contents it operates on are inputs.  The loop body reads only `page`,
`reflection`, the learning database and the conversation history; it
contains no read of `paused`, `stop_requested` or `nudges` (none of those
names occurs in adaptive_agent.py), and `AgentConfig` cannot even carry the
control record.
-/

/-- The oracle decision executed by one loop iteration, with the external
data it operates on (`extract` carries the relevant new items the page
yielded after the model's filter). -/
inductive OracleDecision where
  | goto (url : String)
  | click (elemId : Nat)
  | typeText (text : String)
  | extract (items : List String)
  | analyze
  | done
  | parseFail
deriving Repr, DecidableEq

/-- Browser commands every iteration dispatches before acting
(src/adaptive_agent.py lines 698-788): read `page.url`, detect elements,
draw labels, take the screenshot, remove labels. -/
def perceptionCommands : List String :=
  ["read_url", "detect_elements", "draw_labels", "screenshot", "remove_labels"]

/-- Browser commands the action branch dispatches
(src/adaptive_agent.py lines 899-1152): `goto` navigates, `click` clicks the
mouse, `type` clicks the input then types and presses Enter, `extract`
evaluates the extraction script; `analyze`, `done` and a parse failure touch
only the oracle API or local state. -/
def actionCommands : OracleDecision → List String
  | .goto url => ["goto " ++ url]
  | .click _ => ["mouse_click"]
  | .typeText _ => ["mouse_click", "keyboard_type", "press_enter"]
  | .extract _ => ["evaluate_extraction"]
  | .analyze => []
  | .done => []
  | .parseFail => []

/-- Worker-side state of one `run_adaptive_agent` session: collected items,
the browser commands dispatched so far, the progress events emitted through
the callback, the number of completed iterations, and whether the loop broke
out via an accepted `done`. -/
structure WorkerState where
  collected_data : List String
  commands : List String
  events : List Event
  steps_done : Nat
  finished : Bool
deriving Repr, DecidableEq

/-- Worker state at the top of the loop. -/
def WorkerState.init : WorkerState := ⟨[], [], [], 0, false⟩

/-- One iteration of the worker loop
(src/adaptive_agent.py lines 695-1172): perception commands and the step's
progress events are always produced, then the decided action executes.
`extract` appends the new items (URL-deduplicated against the collection);
`done` with no collected data is rejected and the loop continues, `done`
with data breaks the loop.  No branch reads or writes any control flag. -/
def workerIteration (st : WorkerState) (d : OracleDecision) : WorkerState :=
  let st := { st with
    steps_done := st.steps_done + 1
    commands := st.commands ++ perceptionCommands ++ actionCommands d
    events := st.events ++ [.log "step", .log "screenshot"] }
  match d with
  | .extract items =>
      let newItems := items.filter (fun i => !(st.collected_data.contains i))
      { st with collected_data := st.collected_data ++ newItems }
  | .done =>
      if st.collected_data.isEmpty then st else { st with finished := true }
  | _ => st

/-- The bounded loop `for step in range(MAX_STEPS)` with its `break` on an
accepted `done`: runs one iteration per decision, at most `maxSteps` of
them, stopping early once `finished` is set. -/
def workerRun (st : WorkerState) : Nat → List OracleDecision → WorkerState
  | 0, _ => st
  | _, [] => st
  | maxSteps + 1, d :: rest =>
      let st' := workerIteration st d
      if st'.finished then st' else workerRun st' maxSteps rest

/-- The combined per-session state: the mutex-guarded control record owned
by the server, and the worker's state.  The two communicate only through
the record — which the worker never reads. -/
structure SystemState where
  ctrl : ControlRecord
  worker : WorkerState
deriving Repr, DecidableEq

/-- Fresh session: registered record, worker at the loop top. -/
def SystemState.init : SystemState := ⟨ControlRecord.init, WorkerState.init⟩

/-- A control command arriving on the session's websocket: the handler
updates the record and emits its events. -/
def serverCommand (s : SystemState) (c : Command) : SystemState × List Event :=
  let (ctrl', evs) := handleCommand s.ctrl c
  ({ s with ctrl := ctrl' }, evs)

/-- One worker iteration inside the combined system: the loop body is a
function of the worker state and the oracle decision alone
(src/adaptive_agent.py gives the worker no reference to the control
record). -/
def workerTick (s : SystemState) (d : OracleDecision) : SystemState :=
  { s with worker := workerIteration s.worker d }

/-!
## The /execute endpoint (src/backend/server.py lines 169-262)
-/

/-- The `ExecuteRequest` pydantic model (src/backend/server.py lines
128-135). -/
structure ExecuteRequest where
  task : String
  model : String := "claude"
  tools : List String := []
  headless : Bool := false
  max_steps : Nat := 40
deriving Repr, DecidableEq

/-- Server-side registries touched by `execute`: the `agent_control_state`
map (session id → control record) and the sessions whose `run_agent`
background task was created. -/
structure ServerState where
  agent_control_state : List (String × ControlRecord)
  workers_launched : List String
deriving Repr, DecidableEq

/-- The kwargs of the `AgentConfig(...)` call in `execute`
(src/backend/server.py lines 201-208): the five dataclass fields from the
request plus `control_state=agent_control_state[session_id]` — a keyword
that is not an `AgentConfig` field. -/
def executeConfigDict (req : ExecuteRequest) : DictConfig :=
  { task := some req.task
    model := some req.model
    tools := some req.tools
    max_steps := some req.max_steps
    headless := some req.headless
    extraKeys := ["control_state"] }

/-- The `/execute` handler (src/backend/server.py lines 169-262): generate a
session id (passed in, `uuid4` being external randomness), register the
session and the all-false control record, construct the `AgentConfig`
(which raises), then — only if construction succeeded — create the
`run_agent` background task and return `{"session_id", "accepted": True}`.
An exception propagates out of the endpoint (HTTP 500). -/
def execute (st : ServerState) (session_id : String) (req : ExecuteRequest) :
    ServerState × Except String (String × Bool) :=
  let st := { st with
    agent_control_state :=
      st.agent_control_state ++ [(session_id, ControlRecord.init)] }
  match AgentConfig.fromKwargs (executeConfigDict req) with
  | .error e => (st, .error e)
  | .ok _ =>
      ({ st with workers_launched := st.workers_launched ++ [session_id] },
       .ok (session_id, true))

/-!
## run_agent event emission (src/backend/server.py lines 219-257)
-/

/-- What the `run_adaptive_agent` call inside `run_agent` does: returns an
`AgentResult`, or raises. -/
inductive AgentRunOutcome where
  | returns (r : AgentResult)
  | raises (msg : String)
deriving Repr, DecidableEq

/-- The events `run_agent` (src/backend/server.py lines 219-257) sends over
the session's control channel, in order: `status STARTING`, then on normal
return the single `final{result}` event, and on an escaping exception the
single `error{message}` event.  (`active_sessions[...]["status"]` is an
internal dict field, not an emitted event.) -/
def run_agent_events : AgentRunOutcome → List Event
  | .returns r => [.status "STARTING", .final r]
  | .raises m => [.status "STARTING", .errorEv m]

/-- Is the event a `status` event with a terminal phase
(COMPLETE, FAILED or STOPPED)? -/
def isTerminalStatusEvent : Event → Bool
  | .status p => p = "COMPLETE" || p = "FAILED" || p = "STOPPED"
  | _ => false

/-- Is the event a session-ending emission (`final` or `error`)? -/
def isTerminalEvent : Event → Bool
  | .final _ => true
  | .errorEv _ => true
  | _ => false

/-!
## FrameStreamer (src/live_browser_manager.py lines 107-209 and
src/backend/server.py lines 368-411)

Sinks are numbered by client id; `sinkFails` tells whether a given sink's
`send_json` raises for the current frame (slow or disconnected client).
-/

/-- Streaming state of `LiveBrowserManager`
(src/live_browser_manager.py lines 40-43): the single `frame_callback` slot,
the `is_streaming` flag and the frame counter. -/
structure StreamerState where
  is_streaming : Bool
  frame_callback : Option Nat
  frame_count : Nat
deriving Repr, DecidableEq

/-- A freshly started `LiveBrowserManager` (not yet streaming). -/
def StreamerState.init : StreamerState := ⟨false, none, 0⟩

/-- `start_streaming` (src/live_browser_manager.py lines 107-151): if
already streaming, log a warning and return with nothing changed; otherwise
register the caller's callback as THE frame callback, reset the counter and
start the CDP screencast.  Each connected `/ws/browser` client calls this
with its own per-client send function (src/backend/server.py line 404). -/
def start_streaming (st : StreamerState) (sink : Nat) : StreamerState :=
  if st.is_streaming then st
  else { is_streaming := true, frame_callback := some sink, frame_count := 0 }

/-- `_handle_frame` (src/live_browser_manager.py lines 153-192): acknowledge
the frame, bump the counter, and send the frame to the registered callback;
an exception from the callback is caught and logged (both here and inside
the per-client send function, src/backend/server.py lines 390-400), and
nothing is unregistered.  Returns the new state and the sinks that received
the frame. -/
def handle_frame (st : StreamerState) (sinkFails : Nat → Bool) :
    StreamerState × List Nat :=
  let st := { st with frame_count := st.frame_count + 1 }
  match st.frame_callback with
  | none => (st, [])
  | some sink => if sinkFails sink then (st, []) else (st, [sink])

/-- The subscription step of `websocket_browser_stream`
(src/backend/server.py lines 379-404): the accepted client is appended to
`connected_websocket_clients`, then `start_streaming` is called with the
client's own send function. -/
def subscribeClient (st : StreamerState) (clients : List Nat) (sink : Nat) :
    StreamerState × List Nat :=
  (start_streaming st sink, clients ++ [sink])

/-!
## The Bridge: send_control_event_threadsafe (src/backend/server.py
lines 665-687)
-/

/-- Behaviour of the scheduled `send_control_event` coroutine on the main
loop: it settles (successfully or with an exception) after `t`
milliseconds. -/
inductive SendBehavior where
  | succeedsAt (t : Nat)
  | failsAt (t : Nat) (msg : String)
deriving Repr, DecidableEq

/-- What one call to the Bridge's deliver operation did. -/
structure DeliverReport where
  returnedNormally : Bool
  raisedToCaller : Bool
  waitedMs : Nat
  scheduled : Bool
deriving Repr, DecidableEq

/-- `send_control_event_threadsafe` (src/backend/server.py lines 665-687),
called from the worker thread: if no control websocket is attached for the
session, return at once (silent no-op); otherwise schedule the send on the
main loop and block on `future.result(timeout=1.0)` — waiting until the
send settles or 1000 ms elapse, whichever is first; a timeout or an
exception from the send is caught, logged and swallowed.  The caller always
gets a normal return. -/
def send_control_event_threadsafe (attached : Bool) (b : SendBehavior) :
    DeliverReport :=
  if !attached then
    { returnedNormally := true, raisedToCaller := false
      waitedMs := 0, scheduled := false }
  else
    match b with
    | .succeedsAt t =>
        { returnedNormally := true, raisedToCaller := false
          waitedMs := min t 1000, scheduled := true }
    | .failsAt t _ =>
        { returnedNormally := true, raisedToCaller := false
          waitedMs := min t 1000, scheduled := true }

/-!
## run_adaptive_agent at its interface (src/adaptive_agent.py lines
603-662 and 1194-1245)
-/

/-- The `config` argument of `run_adaptive_agent`: a task string, a dict,
or an `AgentConfig` (src/adaptive_agent.py lines 604, 609-612). -/
inductive ConfigInput where
  | taskStr (task : String)
  | dict (d : DictConfig)
  | cfg (c : AgentConfig)
deriving Repr, DecidableEq

/-- The config normalisation at the top of `run_adaptive_agent`
(src/adaptive_agent.py lines 609-612).  It runs BEFORE the `try` block, so
a `TypeError` from `AgentConfig(**config)` propagates to the caller. -/
def parseConfig : ConfigInput → Except String AgentConfig
  | .taskStr t => .ok { task := t }
  | .dict d => AgentConfig.fromKwargs d
  | .cfg c => .ok c

/-- Behaviour of the guarded session body (the `try` block,
src/adaptive_agent.py lines 659-1192, whose interior consists of browser and
oracle I/O): it either completes, leaving the `success` flag, collected data
and accumulated error strings, or raises with those values current at the
raise site. -/
inductive SessionBehavior where
  | completes (success : Bool) (data : List String) (errs : List String)
  | raises (msg : String) (successAtRaise : Bool)
      (dataSoFar : List String) (errsSoFar : List String)
deriving Repr, DecidableEq

/-- The epilogue of `run_adaptive_agent` (src/adaptive_agent.py lines
1194-1245): the outer `except Exception` appends the exception text to
`errors`; then the message is chosen (collected count / success without
data / last error or a default), `status` is `"completed"` iff the success
flag is set, and the `AgentResult` is assembled and returned. -/
def finishAgentRun (c : AgentConfig) (session_id : String)
    (b : SessionBehavior) : AgentResult :=
  let succ := match b with
    | .completes s _ _ => s
    | .raises _ s _ _ => s
  let data := match b with
    | .completes _ d _ => d
    | .raises _ _ d _ => d
  let errs := match b with
    | .completes _ _ e => e
    | .raises m _ _ e => e ++ [m]
  let message :=
    if succ && !data.isEmpty then
      "Collected " ++ toString data.length ++ " items."
    else if succ then
      "Agent finished successfully without data collection."
    else
      (errs.getLast?).getD "Agent execution completed without success."
  { success := succ
    status := if succ then "completed" else "failed"
    message := message
    mode := c.model
    session_id := session_id
    data := data
    errors := errs }

/-- `run_adaptive_agent` at its interface: normalise the config (may
raise), run the guarded session, assemble the result.  `.error` models an
exception escaping to the caller. -/
def run_adaptive_agent (config : ConfigInput) (session_id : String)
    (b : SessionBehavior) : Except String AgentResult :=
  match parseConfig config with
  | .error e => .error e
  | .ok c => .ok (finishAgentRun c session_id b)

/-!
## Helper lemmas
-/

/-- Every iteration appends exactly the perception commands and the decided
action's commands, whatever the decision. -/
theorem workerIteration_commands (st : WorkerState) (d : OracleDecision) :
    (workerIteration st d).commands =
      st.commands ++ perceptionCommands ++ actionCommands d := by
  cases d <;> simp only [workerIteration] <;> (try split) <;> rfl

/-- Every iteration appends exactly the step's two progress events. -/
theorem workerIteration_events (st : WorkerState) (d : OracleDecision) :
    (workerIteration st d).events =
      st.events ++ [.log "step", .log "screenshot"] := by
  cases d <;> simp only [workerIteration] <;> (try split) <;> rfl

/-- A `goto` iteration never sets the break flag. -/
theorem workerIteration_goto_finished (st : WorkerState) (url : String) :
    (workerIteration st (.goto url)).finished = st.finished := rfl

/-- An unfinished worker given `n` `goto` decisions performs all `n`
iterations. -/
theorem workerRun_goto_steps (url : String) :
    ∀ (n : Nat) (st : WorkerState), st.finished = false →
      (workerRun st n (List.replicate n (.goto url))).steps_done =
        st.steps_done + n := by
  intro n
  induction n with
  | zero => intro st _; rfl
  | succ k ih =>
      intro st h
      rw [List.replicate_succ]
      simp only [workerRun]
      have hfin : (workerIteration st (.goto url)).finished = false := by
        rw [workerIteration_goto_finished]; exact h
      rw [hfin]
      simp only [Bool.false_eq_true, if_false]
      rw [ih _ hfin]
      have hsteps : (workerIteration st (.goto url)).steps_done =
          st.steps_done + 1 := rfl
      omega

/-- Consecutive indices modulo the length of a duplicate-free list of at
least two elements select different elements. -/
theorem getD_rotate_ne (l : List String) (hnd : l.Nodup) (h2 : 2 ≤ l.length)
    (k : Nat) :
    l.getD ((k + 1) % l.length) "" ≠ l.getD ((k + 2) % l.length) "" := by
  have hlpos : 0 < l.length := by omega
  have hi1 : (k + 1) % l.length < l.length := Nat.mod_lt _ hlpos
  have hi2 : (k + 2) % l.length < l.length := Nat.mod_lt _ hlpos
  have hne : (k + 1) % l.length ≠ (k + 2) % l.length := by
    intro h
    have hmod : (k + 1) ≡ (k + 2) [MOD l.length] := h
    have hdvd : l.length ∣ (k + 2) - (k + 1) :=
      (Nat.modEq_iff_dvd' (by omega)).mp hmod
    have hone : (k + 2) - (k + 1) = 1 := by omega
    rw [hone] at hdvd
    have := Nat.dvd_one.mp hdvd
    omega
  rw [List.getD_eq_get _ _ hi1, List.getD_eq_get _ _ hi2]
  intro heq
  exact hne (congrArg Fin.val ((List.Nodup.get_inj_iff hnd).mp heq))

/-- Every `alternatives` list `get_alternative_action` can build is
duplicate-free and has at least two entries. -/
theorem alternativesFor_nodup_two (o : Option String) :
    (LoopDetector.alternativesFor o).Nodup ∧
      2 ≤ (LoopDetector.alternativesFor o).length := by
  cases o with
  | none => exact ⟨by decide, by decide⟩
  | some a =>
      unfold LoopDetector.alternativesFor
      repeat' split
      all_goals exact ⟨by decide, by decide⟩

/-- Once streaming, further `start_streaming` calls change nothing. -/
theorem foldl_start_streaming_of_streaming :
    ∀ (rest : List Nat) (st : StreamerState), st.is_streaming = true →
      rest.foldl start_streaming st = st := by
  intro rest
  induction rest with
  | nil => intro st _; rfl
  | cons x xs ih =>
      intro st h
      have hx : start_streaming st x = st := by simp [start_streaming, h]
      rw [List.foldl_cons, hx, ih st h]

/-!
## Claim theorems
-/

/-- C5: for every observed fingerprint sequence (capacity 5, threshold 3),
`detect_visual_loop` reports stuck exactly when, after appending the current
fingerprint and evicting the oldest entry beyond capacity, the retained
history has at least 3 entries and the current fingerprint occurs at least
3 times in it; concretely [A, A] yields [false, false] and a third A yields
true. -/
theorem detect_visual_loop_iff_threshold :
    (∀ (st : LoopDetector.State) (fp : String),
      ((LoopDetector.detect_visual_loop st fp).2 = true ↔
        (3 ≤ (LoopDetector.detect_visual_loop st fp).1.screenshot_hashes.length ∧
         3 ≤ (LoopDetector.detect_visual_loop st fp).1.screenshot_hashes.count fp))) ∧
    LoopDetector.observeAll LoopDetector.init ["A", "A", "A"] =
      [false, false, true] := by
  constructor
  · intro st fp
    simp only [LoopDetector.detect_visual_loop, LoopDetector.loop_threshold]
    generalize (if LoopDetector.max_history <
        (st.screenshot_hashes ++ [fp]).length
      then (st.screenshot_hashes ++ [fp]).tail
      else st.screenshot_hashes ++ [fp]) = hs
    by_cases h : hs.length < 3
    · simp only [h, if_true]
      constructor
      · intro hfalse; cases hfalse
      · rintro ⟨hlen, _⟩; omega
    · simp only [h, if_false, decide_eq_true_eq]
      have hcl : hs.count fp ≤ hs.length := List.count_le_length fp hs
      constructor
      · intro hc; exact ⟨by omega, hc⟩
      · rintro ⟨_, hc⟩; exact hc
  · rfl

/-- C9 counterexample: `AgentReflection.suggest_alternative` keeps no
attempt counter and is a pure mapping, so two consecutive stuck episodes
with the same last action category ("scrolling") receive the identical
suggestion — refuting the claimed rotation for this function. -/
theorem suggest_alternative_repeats_same_suggestion :
    AgentReflection.suggest_alternative "scrolling" =
      "Try using search or filters instead of scrolling" ∧
    ¬ (AgentReflection.suggest_alternative "scrolling" ≠
        AgentReflection.suggest_alternative "scrolling") := by
  exact ⟨rfl, fun h => h rfl⟩

/-- C9 amended: the rotation property holds for
`LoopDetector.get_alternative_action`: each call increments the attempt
counter and selects `alternatives[counter % len(alternatives)]`, so two
consecutive calls on the same detector (same last action category) never
return the same alternative. -/
theorem get_alternative_action_rotates (st : LoopDetector.State) :
    (LoopDetector.get_alternative_action st).2 ≠
      (LoopDetector.get_alternative_action
        (LoopDetector.get_alternative_action st).1).2 := by
  obtain ⟨hnd, h2⟩ := alternativesFor_nodup_two st.last_action
  simp only [LoopDetector.get_alternative_action]
  have hk : st.loop_break_attempts + 1 + 1 = st.loop_break_attempts + 2 := rfl
  rw [hk]
  exact getD_rotate_ne _ hnd h2 st.loop_break_attempts

/-- C8: the Bridge's deliver operation
(`send_control_event_threadsafe`) never lets an exception reach the worker:
with no channel attached it is an immediate silent no-op, and otherwise it
blocks at most 1000 ms on the scheduled send and returns normally whatever
the send's outcome. -/
theorem deliver_threadsafe_total_and_bounded :
    ∀ (attached : Bool) (b : SendBehavior),
      (send_control_event_threadsafe attached b).raisedToCaller = false ∧
      (send_control_event_threadsafe attached b).returnedNormally = true ∧
      (send_control_event_threadsafe attached b).waitedMs ≤ 1000 ∧
      send_control_event_threadsafe false b =
        { returnedNormally := true, raisedToCaller := false
          waitedMs := 0, scheduled := false } := by
  intro attached b
  cases attached <;> cases b <;>
    simp [send_control_event_threadsafe] <;> omega

/-- C1 (code bug): the pause command does set the session's paused flag,
but the worker loop never observes it: the next iteration still dispatches
its automation commands (perception plus the decided action) for every
control-record content, and `AgentConfig` has no `control_state` field
through which the record could even reach the worker. -/
theorem pause_flag_never_observed_by_worker :
    ∀ (s : SystemState) (d : OracleDecision),
      ((serverCommand s .pause).1.ctrl.paused = true) ∧
      ((workerTick (serverCommand s .pause).1 d).worker.commands =
        s.worker.commands ++ perceptionCommands ++ actionCommands d) ∧
      perceptionCommands ≠ [] ∧
      "control_state" ∉ agentConfigFields := by
  intro s d
  exact ⟨rfl, workerIteration_commands s.worker d, by decide, by decide⟩

/-- C2 (code bug): `/execute` registers the all-false control record, but
then the `AgentConfig(...)` call with the `control_state` keyword raises a
`TypeError` — the endpoint errors out for every request, no `run_agent`
background task is created and no session id is returned. -/
theorem execute_raises_type_error_on_config :
    ∀ (st : ServerState) (sid : String) (req : ExecuteRequest),
      ((execute st sid req).2 = .error
        "TypeError: __init__() got an unexpected keyword argument control_state") ∧
      ((sid, ControlRecord.init) ∈ (execute st sid req).1.agent_control_state) ∧
      ((execute st sid req).1.workers_launched = st.workers_launched) := by
  intro st sid req
  refine ⟨rfl, ?_, rfl⟩
  simp [execute, executeConfigDict, AgentConfig.fromKwargs]

/-- C3 (code bug): the stop command sets `stop_requested` (sending only
the ack, no status event), but the worker never observes the flag: from
the loop top it still performs all of its up-to-`max_steps` iterations
(here `n` `goto` decisions yield `n` executed iterations), and no event of
the control handler or the worker ever carries a STOPPED status. -/
theorem stop_flag_never_observed_by_worker :
    ∀ (s : SystemState) (n : Nat) (url : String),
      ((serverCommand s .stop).1.ctrl.stop_requested = true) ∧
      ((serverCommand s .stop).2 = [.command_ack "stop"]) ∧
      ((workerRun WorkerState.init n
        (List.replicate n (.goto url))).steps_done = n) ∧
      (∀ (ctrl : ControlRecord) (c : Command),
        (handleCommand ctrl c).2.count (Event.status "STOPPED") = 0) ∧
      (∀ (st : WorkerState) (d : OracleDecision),
        (workerIteration st d).events.count (Event.status "STOPPED") =
          st.events.count (Event.status "STOPPED")) := by
  intro s n url
  refine ⟨rfl, rfl, ?_, ?_, ?_⟩
  · have h := workerRun_goto_steps url n WorkerState.init rfl
    simpa [WorkerState.init] using h
  · intro ctrl c
    cases c <;> rfl
  · intro st d
    rw [workerIteration_events, List.count_append]
    rfl

/-- C6 (code bug): two queued nudges stay in enqueue order in the record,
but the worker never drains them: after the next worker iteration the queue
still holds both texts, and the iteration's outcome is identical for every
control-record content (the decision-cycle input contains no nudges). -/
theorem nudges_never_drained_by_worker :
    ∀ (s : SystemState) (t1 t2 : String) (d : OracleDecision),
      ((serverCommand (serverCommand s (.nudge t1)).1 (.nudge t2)).1.ctrl.nudges =
        s.ctrl.nudges ++ [t1, t2]) ∧
      ((workerTick (serverCommand (serverCommand s (.nudge t1)).1
          (.nudge t2)).1 d).ctrl.nudges = s.ctrl.nudges ++ [t1, t2]) ∧
      (∀ (c : ControlRecord),
        (workerTick { s with ctrl := c } d).worker = (workerTick s d).worker) := by
  intro s t1 t2 d
  refine ⟨?_, ?_, fun c => rfl⟩ <;>
    simp [serverCommand, handleCommand, workerTick]

/-- C4 counterexample: for a concrete successful run, `run_agent` emits
zero status events with a terminal phase (COMPLETE, FAILED or STOPPED) —
not exactly one as claimed; the session's end is signalled by a `final`
event instead. -/
theorem no_terminal_status_event_emitted :
    ((run_agent_events (.returns
        { success := true, status := "completed", message := "Collected 1 items."
          mode := "claude", session_id := "s1", data := ["item"], errors := [] }))
      |>.countP isTerminalStatusEvent) = 0 ∧
    ¬ (((run_agent_events (.returns
        { success := true, status := "completed", message := "Collected 1 items."
          mode := "claude", session_id := "s1", data := ["item"], errors := [] }))
      |>.countP isTerminalStatusEvent) = 1) := by
  exact ⟨rfl, by decide⟩

/-- C4 amended: per session run, `run_agent` emits exactly one terminal
event — `final{result}` on normal return, `error{message}` on an escaping
exception — and no status event with phase COMPLETE, FAILED or STOPPED is
ever emitted, neither by `run_agent` nor by the control-command handler nor
by a worker iteration. -/
theorem one_terminal_final_or_error_event :
    ∀ (o : AgentRunOutcome) (ctrl : ControlRecord) (c : Command)
      (st : WorkerState) (d : OracleDecision),
      ((run_agent_events o).countP isTerminalEvent = 1) ∧
      ((run_agent_events o).countP isTerminalStatusEvent = 0) ∧
      ((handleCommand ctrl c).2.countP isTerminalEvent = 0) ∧
      ((handleCommand ctrl c).2.countP isTerminalStatusEvent = 0) ∧
      ((workerIteration st d).events.countP isTerminalEvent =
        st.events.countP isTerminalEvent) := by
  intro o ctrl c st d
  refine ⟨?_, ?_, ?_, ?_, ?_⟩
  · cases o <;> rfl
  · cases o <;> rfl
  · cases c <;> rfl
  · cases c <;> rfl
  · rw [workerIteration_events, List.countP_append]; rfl

/-- C7 counterexample: with sinks 1 and 2 both subscribed (in that order),
the next frame is delivered only to sink 1 — not to every subscribed sink;
and when sink 1's send fails, the frame reaches nobody while sink 1 stays
registered (logged, not dropped). -/
theorem second_sink_receives_no_frames :
    ((subscribeClient (subscribeClient StreamerState.init [] 1).1
        (subscribeClient StreamerState.init [] 1).2 2).2 = [1, 2]) ∧
    ((handle_frame (subscribeClient (subscribeClient StreamerState.init [] 1).1
        (subscribeClient StreamerState.init [] 1).2 2).1
        (fun _ => false)).2 = [1]) ∧
    ((handle_frame (subscribeClient (subscribeClient StreamerState.init [] 1).1
        (subscribeClient StreamerState.init [] 1).2 2).1
        (fun sink => sink == 1)).2 = []) ∧
    ((handle_frame (subscribeClient (subscribeClient StreamerState.init [] 1).1
        (subscribeClient StreamerState.init [] 1).2 2).1
        (fun sink => sink == 1)).1.frame_callback = some 1) := by
  exact ⟨rfl, rfl, rfl, rfl⟩

/-- C7 amended: whatever sinks subscribe after the first one, the
registered frame callback stays the first subscriber's; each frame is
dispatched to that single sink only — delivered when its send succeeds,
silently logged (with the sink retained, not dropped) when it fails. -/
theorem frames_go_to_first_sink_only :
    ∀ (s : Nat) (rest : List Nat) (fails : Nat → Bool),
      ((rest.foldl start_streaming
          (start_streaming StreamerState.init s)).frame_callback = some s) ∧
      ((handle_frame (rest.foldl start_streaming
          (start_streaming StreamerState.init s)) fails).1.frame_callback =
        some s) ∧
      ((handle_frame (rest.foldl start_streaming
          (start_streaming StreamerState.init s)) fails).2 =
        if fails s then [] else [s]) := by
  intro s rest fails
  have hfold : rest.foldl start_streaming (start_streaming StreamerState.init s) =
      start_streaming StreamerState.init s :=
    foldl_start_streaming_of_streaming rest _ rfl
  rw [hfold]
  refine ⟨rfl, ?_, ?_⟩ <;>
    by_cases h : fails s <;>
    simp [handle_frame, start_streaming, StreamerState.init, h]

/-- C10 counterexample: a dict config with the `control_state` key — the
very dict `/execute` builds — or with the `task` key missing makes
`run_adaptive_agent` raise a `TypeError` during config normalisation, which
happens before the guarded region: no `AgentResult` is returned. -/
theorem run_adaptive_agent_raises_on_bad_dict :
    (run_adaptive_agent
        (.dict { task := some "find laptops", extraKeys := ["control_state"] })
        "20240101_000000" (.completes false [] []) =
      .error "TypeError: __init__() got an unexpected keyword argument control_state") ∧
    (run_adaptive_agent (.dict {}) "20240101_000000" (.completes false [] []) =
      .error "TypeError: __init__() missing 1 required positional argument: task") := by
  exact ⟨rfl, rfl⟩

/-- C10 amended: for a task string, an `AgentConfig`, or a dict whose keys
are valid `AgentConfig` parameters including `task`, `run_adaptive_agent`
never raises: an `AgentResult` is always returned, an exception escaping
the session body is recorded in the result's errors list, and the status is
"failed" exactly when the success flag is false. -/
theorem run_adaptive_agent_total_on_valid_config :
    ∀ (c : AgentConfig) (t sid m : String) (s' : Bool)
      (dta e : List String) (b : SessionBehavior),
      (run_adaptive_agent (.cfg c) sid b = .ok (finishAgentRun c sid b)) ∧
      (run_adaptive_agent (.taskStr t) sid b =
        .ok (finishAgentRun { task := t } sid b)) ∧
      (run_adaptive_agent (.dict { task := some t }) sid b =
        .ok (finishAgentRun { task := t } sid b)) ∧
      ((finishAgentRun c sid b).status = "failed" ↔
        (finishAgentRun c sid b).success = false) ∧
      (m ∈ (finishAgentRun c sid (.raises m s' dta e)).errors) := by
  intro c t sid m s' dta e b
  refine ⟨rfl, rfl, rfl, ?_, ?_⟩
  · cases b with
    | completes s0 d0 e0 => cases s0 <;> simp [finishAgentRun]
    | raises m0 s0 d0 e0 => cases s0 <;> simp [finishAgentRun]
  · simp [finishAgentRun]
